import Mathlib

/-!
Shallow embedding of `src/main.go` (fitness-tracker sprint): a base `Training`
record with shared `distance`/`meanSpeed` formulas, three variants
(`Running`, `Walking`, `Swimming`) overriding `Calories` (and, for swimming,
`meanSpeed`), an `InfoMessage` summary structure with a fixed-format renderer,
and the `ReadData` entry point.  Go `float64` arithmetic is modelled by exact
rational arithmetic (`ℚ`); Go `time.Duration` (an `int64` count of
nanoseconds) is modelled by `ℤ`, with `Duration.hours` / `Duration.minutes`
embedding the `time.Duration.Hours` / `Minutes` conversions.  A separate
extended-value type `GoFloat` models the IEEE-754 special values `+Inf`,
`-Inf`, `NaN` where a claim is about non-finite results.
-/

/-! Shared constants (`const` block at the top of `main.go`). -/

/-- Go constant `MInKm = 1000`, metres in a kilometre. -/
def MInKm : ℚ := 1000

/-- Go constant `MinInHours = 60`, minutes in an hour. -/
def MinInHours : ℚ := 60

/-- Go constant `LenStep = 0.65`, length of one step in metres. -/
def LenStep : ℚ := 0.65

/-- Go constant `CmInM = 100`, centimetres in a metre. -/
def CmInM : ℚ := 100

/-- Go `time.Duration`: an `int64` count of nanoseconds. -/
def Duration.nsPerHour : ℤ := 3600000000000

/-- Nanoseconds in a minute (`time.Minute`). -/
def Duration.nsPerMinute : ℤ := 60000000000

/-- Embedding of `time.Duration.Hours()`: the duration as a number of hours. -/
def Duration.hours (d : ℤ) : ℚ := (d : ℚ) / (Duration.nsPerHour : ℚ)

/-- Embedding of `time.Duration.Minutes()`: the duration as a number of minutes. -/
def Duration.minutes (d : ℤ) : ℚ := (d : ℚ) / (Duration.nsPerMinute : ℚ)

/-- Go struct `Training`: the common record of every workout.
`Action` is the repetition count (steps or strokes), `LenStep` the length of
one step/stroke in metres, `Duration` the workout duration in nanoseconds,
`Weight` the user's weight in kilograms. -/
structure Training where
  TrainingType : String
  Action : ℤ
  LenStep : ℚ
  Duration : ℤ
  Weight : ℚ

/-- Go method `Training.distance`: `float64(t.Action) * t.LenStep / MInKm`. -/
def Training.distance (t : Training) : ℚ :=
  (t.Action : ℚ) * t.LenStep / MInKm

/-- Go method `Training.meanSpeed`: returns `0` when the duration is zero
hours, otherwise `t.distance() / timeOfTrainingInHours`. -/
def Training.meanSpeed (t : Training) : ℚ :=
  let timeOfTrainingInHours := Duration.hours t.Duration
  if timeOfTrainingInHours = 0 then 0
  else t.distance / timeOfTrainingInHours

/-- Go method `Training.Calories`: the base implementation returns `0`. -/
def Training.Calories (_t : Training) : ℚ := 0

/-- Go struct `InfoMessage`: embeds `Training` and carries the computed
`Distance`, `Speed` and `Calories` of the workout. -/
structure InfoMessage where
  training : Training
  Distance : ℚ
  Speed : ℚ
  Calories : ℚ

/-- Go method `Training.TrainingInfo`. -/
def Training.TrainingInfo (t : Training) : InfoMessage :=
  { training := t
    Distance := t.distance
    Speed := t.meanSpeed
    Calories := t.Calories }

/-! Running (`Running` struct embedding `Training`). -/

/-- Go constant `CaloriesMeanSpeedMultiplier = 18`. -/
def CaloriesMeanSpeedMultiplier : ℚ := 18

/-- Go constant `CaloriesMeanSpeedShift = 1.79`. -/
def CaloriesMeanSpeedShift : ℚ := 1.79

/-- Go struct `Running`: embeds `Training` and adds nothing. -/
structure Running where
  training : Training

/-- Promoted method `Running.distance` (from the embedded `Training`). -/
def Running.distance (r : Running) : ℚ := r.training.distance

/-- Promoted method `Running.meanSpeed` (from the embedded `Training`). -/
def Running.meanSpeed (r : Running) : ℚ := r.training.meanSpeed

/-- Go method `Running.Calories`:
`(18 * meanSpeed + 1.79) * Weight / MInKm * (Duration.Hours() * MinInHours)`. -/
def Running.Calories (r : Running) : ℚ :=
  let runnigMeanSpeed := r.meanSpeed
  let runningTimeInMinutes := Duration.hours r.training.Duration * MinInHours
  let runningMeanSpeedModifier :=
    CaloriesMeanSpeedMultiplier * runnigMeanSpeed + CaloriesMeanSpeedShift
  runningMeanSpeedModifier * r.training.Weight / MInKm * runningTimeInMinutes

/-- Go method `Running.TrainingInfo`. -/
def Running.TrainingInfo (r : Running) : InfoMessage :=
  { training := r.training
    Distance := r.distance
    Speed := r.meanSpeed
    Calories := r.Calories }

/-! Walking (`Walking` struct embedding `Training`, extra field `Height`). -/

/-- Go constant `CaloriesWeightMultiplier = 0.035`. -/
def CaloriesWeightMultiplier : ℚ := 0.035

/-- Go constant `CaloriesSpeedHeightMultiplier = 0.029`. -/
def CaloriesSpeedHeightMultiplier : ℚ := 0.029

/-- Go constant `KmHInMsec = 0.278`. -/
def KmHInMsec : ℚ := 0.278

/-- Go struct `Walking`: embeds `Training` and adds `Height` (cm). -/
structure Walking where
  training : Training
  Height : ℚ

/-- Promoted method `Walking.distance` (from the embedded `Training`). -/
def Walking.distance (w : Walking) : ℚ := w.training.distance

/-- Promoted method `Walking.meanSpeed` (from the embedded `Training`). -/
def Walking.meanSpeed (w : Walking) : ℚ := w.training.meanSpeed

/-- Go method `Walking.Calories`:
`(0.035*Weight + (speedMs^2 / heightM) * 0.029*Weight) * minutes`, with
`speedMs = meanSpeed * 0.278`, `heightM = Height / CmInM`,
`minutes = Duration.Hours() * MinInHours`.  `math.Pow(x, 2)` is `x ^ 2`. -/
def Walking.Calories (w : Walking) : ℚ :=
  let walkingMeanSpeedInMetresPerSecond := w.meanSpeed * KmHInMsec
  let heightInMetres := w.Height / CmInM
  let trainingTimeInMinutes := Duration.hours w.training.Duration * MinInHours
  let firstWeightModifier := CaloriesWeightMultiplier * w.training.Weight
  let secondWeightModifier := CaloriesSpeedHeightMultiplier * w.training.Weight
  let walkingSpeedModifier := walkingMeanSpeedInMetresPerSecond ^ 2 / heightInMetres
  (firstWeightModifier + walkingSpeedModifier * secondWeightModifier) * trainingTimeInMinutes

/-- Go method `Walking.TrainingInfo`. -/
def Walking.TrainingInfo (w : Walking) : InfoMessage :=
  { training := w.training
    Distance := w.distance
    Speed := w.meanSpeed
    Calories := w.Calories }

/-! Swimming (`Swimming` struct embedding `Training`, extra fields
`LengthPool`, `CountPool`). -/

/-- Go constant `SwimmingLenStep = 1.38`, length of one stroke. -/
def SwimmingLenStep : ℚ := 1.38

/-- Go constant `SwimmingCaloriesMeanSpeedShift = 1.1`. -/
def SwimmingCaloriesMeanSpeedShift : ℚ := 1.1

/-- Go constant `SwimmingCaloriesWeightMultiplier = 2`. -/
def SwimmingCaloriesWeightMultiplier : ℚ := 2

/-- Go struct `Swimming`: embeds `Training`, adds pool length (m) and the
number of pool crossings, both Go `int`. -/
structure Swimming where
  training : Training
  LengthPool : ℤ
  CountPool : ℤ

/-- Promoted method `Swimming.distance` (from the embedded `Training`):
swimming keeps the inherited stroke-based distance formula. -/
def Swimming.distance (s : Swimming) : ℚ := s.training.distance

/-- Go method `Swimming.meanSpeed` (overrides the base): returns `0` when the
duration is zero hours, otherwise
`float64(LengthPool) * float64(CountPool) / MInKm / hours`. -/
def Swimming.meanSpeed (s : Swimming) : ℚ :=
  let timeOfTrainingInHours := Duration.hours s.training.Duration
  if timeOfTrainingInHours = 0 then 0
  else (s.LengthPool : ℚ) * (s.CountPool : ℚ) / MInKm / timeOfTrainingInHours

/-- Go method `Swimming.Calories`:
`(meanSpeed + 1.1) * 2 * Weight * Duration.Hours()`. -/
def Swimming.Calories (s : Swimming) : ℚ :=
  let swimmingMeanSpeed := s.meanSpeed
  let trainingTime := Duration.hours s.training.Duration
  (swimmingMeanSpeed + SwimmingCaloriesMeanSpeedShift) *
    SwimmingCaloriesWeightMultiplier * s.training.Weight * trainingTime

/-- Go method `Swimming.TrainingInfo`. -/
def Swimming.TrainingInfo (s : Swimming) : InfoMessage :=
  { training := s.training
    Distance := s.distance
    Speed := s.meanSpeed
    Calories := s.Calories }

/-! Sample instances built by `main`. -/

/-- The `swimming` value of `main`: 2000 strokes, stroke length 1.38 m,
90 minutes, 85 kg, 50 m pool crossed 5 times. -/
def swimmingSample : Swimming :=
  { training :=
      { TrainingType := "Плавание"
        Action := 2000
        LenStep := SwimmingLenStep
        Duration := 90 * Duration.nsPerMinute
        Weight := 85 }
    LengthPool := 50
    CountPool := 5 }

/-- The `walking` value of `main`: 20000 steps, step length 0.65 m,
3 h 45 min, 85 kg, height 185 cm. -/
def walkingSample : Walking :=
  { training :=
      { TrainingType := "Ходьба"
        Action := 20000
        LenStep := LenStep
        Duration := 3 * Duration.nsPerHour + 45 * Duration.nsPerMinute
        Weight := 85 }
    Height := 185 }

/-- The `running` value of `main`: 5000 steps, step length 0.65 m,
30 minutes, 85 kg. -/
def runningSample : Running :=
  { training :=
      { TrainingType := "Бег"
        Action := 5000
        LenStep := LenStep
        Duration := 30 * Duration.nsPerMinute
        Weight := 85 } }

/-! Extended-value model of Go `float64` special values.  The main embedding
uses exact `ℚ` arithmetic, which is adequate for every formula of `main.go`
except the unguarded division by `heightInMetres` in `Walking.Calories`:
there IEEE-754 produces `+Inf`/`NaN` instead of a number.  `GoFloat` refines
the model with the special values and the IEEE-754 rules for them (the model
has no negative zero; every zero is `+0`, which matches the values arising in
`Walking.Calories`, where `heightInMetres` is `Height / 100` and the squared
speed term is a product of a value with itself). -/

/-- A Go `float64` value: finite (modelled exactly), `+Inf`, `-Inf` or `NaN`. -/
inductive GoFloat where
  | fin : ℚ → GoFloat
  | inf : GoFloat
  | ninf : GoFloat
  | nan : GoFloat
deriving DecidableEq

/-- Whether a `GoFloat` is a finite number (not `±Inf`, not `NaN`). -/
def GoFloat.isFinite : GoFloat → Bool
  | .fin _ => true
  | _ => false

/-- IEEE-754 multiplication on `GoFloat` (finite products taken exactly). -/
def GoFloat.mul : GoFloat → GoFloat → GoFloat
  | .fin a, .fin b => .fin (a * b)
  | .nan, _ => .nan
  | _, .nan => .nan
  | .inf, .inf => .inf
  | .inf, .ninf => .ninf
  | .ninf, .inf => .ninf
  | .ninf, .ninf => .inf
  | .inf, .fin b => if 0 < b then .inf else if b < 0 then .ninf else .nan
  | .fin a, .inf => if 0 < a then .inf else if a < 0 then .ninf else .nan
  | .ninf, .fin b => if 0 < b then .ninf else if b < 0 then .inf else .nan
  | .fin a, .ninf => if 0 < a then .ninf else if a < 0 then .inf else .nan

/-- IEEE-754 addition on `GoFloat` (finite sums taken exactly). -/
def GoFloat.add : GoFloat → GoFloat → GoFloat
  | .fin a, .fin b => .fin (a + b)
  | .nan, _ => .nan
  | _, .nan => .nan
  | .inf, .ninf => .nan
  | .ninf, .inf => .nan
  | .inf, _ => .inf
  | _, .inf => .inf
  | .ninf, _ => .ninf
  | _, .ninf => .ninf

/-- IEEE-754 division on `GoFloat` (finite quotients taken exactly; zero
denominators are `+0`, as in `Walking.Calories`): `x / 0` is `+Inf` for
`x > 0`, `-Inf` for `x < 0` and `NaN` for `0 / 0`. -/
def GoFloat.div : GoFloat → GoFloat → GoFloat
  | .nan, _ => .nan
  | _, .nan => .nan
  | .fin a, .fin b =>
    if b ≠ 0 then .fin (a / b)
    else if 0 < a then .inf else if a < 0 then .ninf else .nan
  | .inf, .fin b => if 0 ≤ b then .inf else .ninf
  | .ninf, .fin b => if 0 ≤ b then .ninf else .inf
  | .fin _, .inf => .fin 0
  | .fin _, .ninf => .fin 0
  | .inf, .inf => .nan
  | .inf, .ninf => .nan
  | .ninf, .inf => .nan
  | .ninf, .ninf => .nan

/-- Go `math.Pow(x, 2)`: the square, with IEEE-754 special-value behaviour
(`Pow(±Inf, 2) = +Inf`, `Pow(NaN, 2) = NaN`), which on these arguments
coincides with `x * x`. -/
def GoFloat.pow2 (x : GoFloat) : GoFloat := x.mul x

/-- Go method `Walking.Calories` re-embedded over `GoFloat`, statement for
statement: every input field is a finite `float64`, `meanSpeed` is finite by
its zero-duration guard, and the one operation that can leave the finite
range is `walkingSpeedModifier`, the division by `heightInMetres`. -/
def Walking.caloriesFloat (w : Walking) : GoFloat :=
  let walkingMeanSpeedInMetresPerSecond :=
    (GoFloat.fin w.meanSpeed).mul (GoFloat.fin KmHInMsec)
  let heightInMetres := GoFloat.fin (w.Height / CmInM)
  let trainingTimeInMinutes :=
    GoFloat.fin (Duration.hours w.training.Duration * MinInHours)
  let firstWeightModifier :=
    (GoFloat.fin CaloriesWeightMultiplier).mul (GoFloat.fin w.training.Weight)
  let secondWeightModifier :=
    (GoFloat.fin CaloriesSpeedHeightMultiplier).mul (GoFloat.fin w.training.Weight)
  let walkingSpeedModifier :=
    walkingMeanSpeedInMetresPerSecond.pow2.div heightInMetres
  (firstWeightModifier.add (walkingSpeedModifier.mul secondWeightModifier)).mul
    trainingTimeInMinutes

/-! Rendering (`InfoMessage.String` and the `fmt` verbs it uses).
`%.2f` is modelled by `fmt2`: the magnitude is rounded to two decimal places
(nearest, ties to even, as `strconv` does on the decimal expansion) and
printed with exactly two digits after the point; `%v` on a `float64` is
modelled by `fmtGoFloat`: sign, integer part, and the exact decimal expansion
of the fractional part when there is one (a `float64` value always has a
finite decimal expansion; `fracDigitsAux` carries enough fuel for it). -/

/-- Decimal digit string of a natural number. -/
def natStr (n : ℕ) : String :=
  if n = 0 then "0"
  else ((Nat.digits 10 n).reverse.map Nat.digitChar).asString

/-- Decimal digit string of an integer, with a leading minus sign. -/
def intStr (n : ℤ) : String :=
  if n < 0 then "-" ++ natStr n.natAbs else natStr n.natAbs

/-- Rounding to the nearest integer, ties to the even neighbour. -/
def roundHalfEven (x : ℚ) : ℤ :=
  if x - ⌊x⌋ < 1 / 2 then ⌊x⌋
  else if 1 / 2 < x - ⌊x⌋ then ⌊x⌋ + 1
  else if 2 ∣ ⌊x⌋ then ⌊x⌋ else ⌊x⌋ + 1

/-- Model of `fmt` verb `%.2f`: sign, then the magnitude rounded to two
decimal places and printed with exactly two digits after the point. -/
def fmt2 (q : ℚ) : String :=
  let n := (roundHalfEven (|q| * 100)).toNat
  let sign := if q < 0 then "-" else ""
  sign ++ natStr (n / 100) ++ "." ++
    String.mk [Nat.digitChar (n / 10 % 10), Nat.digitChar (n % 10)]

/-- Decimal digits of a fractional part `r` (`0 ≤ r < 1` in use), produced
most-significant first until `r` is exhausted or the fuel runs out. -/
def fracDigitsAux : ℕ → ℚ → List Char
  | 0, _ => []
  | fuel + 1, r =>
    if r = 0 then []
    else Nat.digitChar (⌊r * 10⌋).toNat :: fracDigitsAux fuel (r * 10 - ⌊r * 10⌋)

/-- Model of `fmt` verb `%v` on a `float64`: sign, integer part, and the
decimal expansion of the fractional part when it is non-zero. -/
def fmtGoFloat (q : ℚ) : String :=
  let sign := if q < 0 then "-" else ""
  let ip := natStr (⌊|q|⌋).toNat
  let fr := |q| - ⌊|q|⌋
  if fr = 0 then sign ++ ip
  else sign ++ ip ++ "." ++ (fracDigitsAux 1100 fr).asString

/-- Go method `InfoMessage.String`:
`fmt.Sprintf` over the format string
`"Тип тренировки: %s\nДлительность: %v мин\nДистанция: %.2f км.\nСр. скорость: %.2f км/ч\nПотрачено ккал: %.2f\n"`
applied to the type label, the duration in minutes, the distance, the speed
and the calories, in that order. -/
def InfoMessage.render (i : InfoMessage) : String :=
  "Тип тренировки: " ++ i.training.TrainingType ++ "\n" ++
  "Длительность: " ++ fmtGoFloat (Duration.minutes i.training.Duration) ++ " мин" ++ "\n" ++
  "Дистанция: " ++ fmt2 i.Distance ++ " км." ++ "\n" ++
  "Ср. скорость: " ++ fmt2 i.Speed ++ " км/ч" ++ "\n" ++
  "Потрачено ккал: " ++ fmt2 i.Calories ++ "\n"

/-- The Go interface `CaloriesCalculator` closed over this program's
implementors: `Training` itself and the three variants. -/
inductive Activity where
  | base : Training → Activity
  | running : Running → Activity
  | walking : Walking → Activity
  | swimming : Swimming → Activity

/-- Dynamic dispatch of `Calories()` through the interface. -/
def Activity.Calories : Activity → ℚ
  | .base t => t.Calories
  | .running r => r.Calories
  | .walking w => w.Calories
  | .swimming s => s.Calories

/-- Dynamic dispatch of `TrainingInfo()` through the interface. -/
def Activity.TrainingInfo : Activity → InfoMessage
  | .base t => t.TrainingInfo
  | .running r => r.TrainingInfo
  | .walking w => w.TrainingInfo
  | .swimming s => s.TrainingInfo

/-- Go function `ReadData`: computes `Calories()`, builds `TrainingInfo()`,
overwrites the `Calories` field of the info with the computed value, and
renders it (`fmt.Sprint` uses the `String()` method). -/
def ReadData (training : Activity) : String :=
  let calories := training.Calories
  let info := training.TrainingInfo
  let infoOut : InfoMessage := { info with Calories := calories }
  infoOut.render

/-- Splits a character list into its newline-separated lines (a trailing
newline yields a final empty component, as `strings.Split` would). -/
def linesOf : List Char → List (List Char)
  | [] => [[]]
  | c :: cs =>
    match linesOf cs with
    | [] => [[c]]
    | l :: ls => if c = '\n' then [] :: l :: ls else (c :: l) :: ls

/-- A string whose final three characters are a point followed by exactly two
decimal digits: it ends in a two-decimal-digit fraction. -/
def twoDecimalDigits (s : String) : Prop :=
  ∃ a b c, s.data = a ++ ['.', b, c] ∧ b.isDigit = true ∧ c.isDigit = true

/-- A zero-duration training value (the running sample with its duration set
to zero), used to witness the zero-duration guard. -/
def zeroDurationTraining : Training :=
  { TrainingType := "Бег"
    Action := 5000
    LenStep := LenStep
    Duration := 0
    Weight := 85 }

/-- A zero-duration swimming value (the swimming sample with its duration set
to zero), used to witness the zero-duration guard of the override. -/
def zeroDurationSwimming : Swimming :=
  { training :=
      { TrainingType := "Плавание"
        Action := 2000
        LenStep := SwimmingLenStep
        Duration := 0
        Weight := 85 }
    LengthPool := 50
    CountPool := 5 }

/-- A zero-height walking value (the walking sample with its height set to
zero), used to witness the unguarded division by height. -/
def zeroHeightWalking : Walking :=
  { training := walkingSample.training
    Height := 0 }

/-- The summary of the running sample, used to witness the rendering theorem. -/
def sampleInfo : InfoMessage := runningSample.TrainingInfo

/-! Helper lemmas. -/

lemma GoFloat.isFinite_false_mul_fin (x : GoFloat) (b : ℚ) (hx : x.isFinite = false) :
    (x.mul (GoFloat.fin b)).isFinite = false := by
  cases x
  · simp [GoFloat.isFinite] at hx
  · simp only [GoFloat.mul]; split_ifs <;> rfl
  · simp only [GoFloat.mul]; split_ifs <;> rfl
  · rfl

lemma GoFloat.fin_add_isFinite_false (a : ℚ) (x : GoFloat) (hx : x.isFinite = false) :
    ((GoFloat.fin a).add x).isFinite = false := by
  cases x <;> simp_all [GoFloat.add, GoFloat.isFinite]

lemma GoFloat.fin_div_zero (a : ℚ) (ha : 0 < a) :
    (GoFloat.fin a).div (GoFloat.fin 0) = GoFloat.inf := by
  simp only [GoFloat.div]
  simp [ha]

lemma linesOf_ne_nil (s : List Char) : linesOf s ≠ [] := by
  induction s with
  | nil => simp [linesOf]
  | cons c cs ih =>
    simp only [linesOf]
    rcases hcs : linesOf cs with _ | ⟨l, ls⟩
    · simp
    · by_cases hc : c = '\n' <;> simp [hc]

lemma linesOf_newline_cons (cs : List Char) :
    linesOf ('\n' :: cs) = [] :: linesOf cs := by
  simp only [linesOf]
  rcases hcs : linesOf cs with _ | ⟨l, ls⟩
  · exact absurd hcs (linesOf_ne_nil cs)
  · simp

lemma linesOf_clean_cons {c : Char} (cs : List Char) (hc : c ≠ '\n') :
    linesOf (c :: cs) = (c :: (linesOf cs).headI) :: (linesOf cs).tail := by
  simp only [linesOf]
  rcases hcs : linesOf cs with _ | ⟨l, ls⟩
  · exact absurd hcs (linesOf_ne_nil cs)
  · simp [hc]

lemma linesOf_line (a b : List Char) (h : '\n' ∉ a) :
    linesOf (a ++ '\n' :: b) = a :: linesOf b := by
  induction a with
  | nil => simpa using linesOf_newline_cons b
  | cons c a ih =>
    have hc : c ≠ '\n' := fun hh => h (hh ▸ List.mem_cons_self c a)
    have ha : '\n' ∉ a := fun hh => h (List.mem_cons_of_mem c hh)
    rw [List.cons_append, linesOf_clean_cons _ hc, ih ha]
    simp

lemma no_newline_append {s t : List Char} (hs : '\n' ∉ s) (ht : '\n' ∉ t) :
    '\n' ∉ s ++ t :=
  fun h => (List.mem_append.mp h).elim hs ht

lemma digitChar_ne_newline : ∀ n : ℕ, Nat.digitChar n ≠ '\n'
  | 0 => by decide
  | 1 => by decide
  | 2 => by decide
  | 3 => by decide
  | 4 => by decide
  | 5 => by decide
  | 6 => by decide
  | 7 => by decide
  | 8 => by decide
  | 9 => by decide
  | 10 => by decide
  | 11 => by decide
  | 12 => by decide
  | 13 => by decide
  | 14 => by decide
  | 15 => by decide
  | (n + 16) => by
      show ('*' : Char) ≠ '\n'
      decide

lemma digitChar_isDigit {n : ℕ} (h : n < 10) : (Nat.digitChar n).isDigit = true := by
  interval_cases n <;> decide

lemma natStr_no_newline (n : ℕ) : '\n' ∉ (natStr n).data := by
  unfold natStr
  split
  · decide
  · intro hmem
    rw [show (List.asString ((Nat.digits 10 n).reverse.map Nat.digitChar)).data
          = (Nat.digits 10 n).reverse.map Nat.digitChar from rfl] at hmem
    obtain ⟨a, _, ha⟩ := List.mem_map.mp hmem
    exact digitChar_ne_newline a ha

lemma fracDigitsAux_no_newline (fuel : ℕ) (r : ℚ) : '\n' ∉ fracDigitsAux fuel r := by
  induction fuel generalizing r with
  | zero => simp [fracDigitsAux]
  | succ k ih =>
    simp only [fracDigitsAux]
    split
    · simp
    · intro hmem
      rcases List.mem_cons.mp hmem with h | h
      · exact digitChar_ne_newline _ h.symm
      · exact ih _ h

lemma fmtGoFloat_no_newline (q : ℚ) : '\n' ∉ (fmtGoFloat q).data := by
  have hsign : '\n' ∉ (if q < 0 then "-" else "" : String).data := by split <;> decide
  have hip := natStr_no_newline (⌊|q|⌋).toNat
  have hfrac : '\n' ∉ ((fracDigitsAux 1100 (|q| - ⌊|q|⌋)).asString).data :=
    fracDigitsAux_no_newline 1100 (|q| - ⌊|q|⌋)
  simp only [fmtGoFloat]
  split
  · simp only [String.data_append]
    exact no_newline_append hsign hip
  · simp only [String.data_append]
    exact no_newline_append (no_newline_append (no_newline_append hsign hip) (by decide)) hfrac

lemma fmt2_eq (q : ℚ) : fmt2 q =
    (if q < 0 then "-" else "") ++ natStr ((roundHalfEven (|q| * 100)).toNat / 100) ++ "." ++
      String.mk [Nat.digitChar ((roundHalfEven (|q| * 100)).toNat / 10 % 10),
        Nat.digitChar ((roundHalfEven (|q| * 100)).toNat % 10)] := rfl

lemma fmt2_no_newline (q : ℚ) : '\n' ∉ (fmt2 q).data := by
  rw [fmt2_eq]
  simp only [String.data_append]
  refine no_newline_append (no_newline_append (no_newline_append ?_ ?_) ?_) ?_
  · split <;> decide
  · exact natStr_no_newline _
  · decide
  · intro h
    rcases List.mem_cons.mp h with h | h
    · exact digitChar_ne_newline _ h.symm
    · rcases List.mem_cons.mp h with h | h
      · exact digitChar_ne_newline _ h.symm
      · simp at h

lemma fmt2_twoDecimalDigits (q : ℚ) : twoDecimalDigits (fmt2 q) := by
  refine ⟨(if q < 0 then "-" else "").data ++
      (natStr ((roundHalfEven (|q| * 100)).toNat / 100)).data,
    Nat.digitChar ((roundHalfEven (|q| * 100)).toNat / 10 % 10),
    Nat.digitChar ((roundHalfEven (|q| * 100)).toNat % 10), ?_, ?_, ?_⟩
  · rw [fmt2_eq]
    simp only [String.data_append, List.append_assoc]
    rfl
  · exact digitChar_isDigit (Nat.mod_lt _ (by norm_num))
  · exact digitChar_isDigit (Nat.mod_lt _ (by norm_num))

/-! Claim theorems. -/

/-- C1: for every activity whose duration is zero hours, mean speed is 0 —
the base `Training.meanSpeed` and Swimming's overriding `Swimming.meanSpeed`
both return 0 when the duration in hours equals zero, instead of failing or
dividing by zero. -/
theorem meanSpeed_zero_duration_eq_zero (t : Training) (s : Swimming)
    (ht : Duration.hours t.Duration = 0)
    (hs : Duration.hours s.training.Duration = 0) :
    t.meanSpeed = 0 ∧ s.meanSpeed = 0 := by
  constructor
  · simp [Training.meanSpeed, ht]
  · simp [Swimming.meanSpeed, hs]

/-- Witness for C1 at the zero-duration sample values. -/
theorem meanSpeed_zero_duration_eq_zero_witness :
    Duration.hours zeroDurationTraining.Duration = 0 ∧
    Duration.hours zeroDurationSwimming.training.Duration = 0 ∧
    (zeroDurationTraining.meanSpeed = 0 ∧ zeroDurationSwimming.meanSpeed = 0) := by
  have h1 : Duration.hours zeroDurationTraining.Duration = 0 := by
    simp [Duration.hours, zeroDurationTraining]
  have h2 : Duration.hours zeroDurationSwimming.training.Duration = 0 := by
    simp [Duration.hours, zeroDurationSwimming]
  exact ⟨h1, h2, meanSpeed_zero_duration_eq_zero _ _ h1 h2⟩

/-- C2: for every `Running` activity, `Calories()` equals
`(18 * mean_speed_kmh + 1.79) * weight_kg / 1000 * duration_min`, where
`mean_speed_kmh` is the base mean speed and `duration_min` is
`duration_hours * 60`. -/
theorem running_calories_formula (r : Running) :
    r.Calories = (18 * r.training.meanSpeed + 1.79) * r.training.Weight / 1000 *
      (Duration.hours r.training.Duration * 60) := rfl

/-- C3: for every `Walking` activity with non-zero height, `Calories()` equals
`(0.035*weight + ((meanSpeed*0.278)^2 / (height/100)) * 0.029*weight) *
(duration_hours*60)`. -/
theorem walking_calories_formula (w : Walking) (hw : w.Height ≠ 0) :
    w.Calories = (0.035 * w.training.Weight +
      ((w.meanSpeed * 0.278) ^ 2 / (w.Height / 100)) * 0.029 * w.training.Weight) *
      (Duration.hours w.training.Duration * 60) := by
  simp only [Walking.Calories, CaloriesWeightMultiplier, CaloriesSpeedHeightMultiplier,
    KmHInMsec, CmInM, MinInHours]
  ring

/-- Witness for C3 at the walking sample of `main` (height 185 cm). -/
theorem walking_calories_formula_witness :
    walkingSample.Height ≠ 0 ∧
    walkingSample.Calories = (0.035 * walkingSample.training.Weight +
      ((walkingSample.meanSpeed * 0.278) ^ 2 / (walkingSample.Height / 100)) * 0.029 *
        walkingSample.training.Weight) *
      (Duration.hours walkingSample.training.Duration * 60) := by
  have h : walkingSample.Height ≠ 0 := by norm_num [walkingSample]
  exact ⟨h, walking_calories_formula walkingSample h⟩

/-- C4: for every `Swimming` activity with non-zero duration, the overriding
`meanSpeed()` equals `pool_length * lap_count / 1000 / duration_hours`,
computed from the pool geometry rather than from repetitions and step
length. -/
theorem swimming_meanSpeed_pool_formula (s : Swimming)
    (hs : Duration.hours s.training.Duration ≠ 0) :
    s.meanSpeed = (s.LengthPool : ℚ) * (s.CountPool : ℚ) / 1000 /
      Duration.hours s.training.Duration := by
  simp [Swimming.meanSpeed, hs, MInKm]

/-- Witness for C4 at the swimming sample of `main` (90 minutes). -/
theorem swimming_meanSpeed_pool_formula_witness :
    Duration.hours swimmingSample.training.Duration ≠ 0 ∧
    swimmingSample.meanSpeed =
      (swimmingSample.LengthPool : ℚ) * (swimmingSample.CountPool : ℚ) / 1000 /
        Duration.hours swimmingSample.training.Duration := by
  have h : Duration.hours swimmingSample.training.Duration ≠ 0 := by
    norm_num [swimmingSample, Duration.hours, Duration.nsPerMinute, Duration.nsPerHour]
  exact ⟨h, swimming_meanSpeed_pool_formula swimmingSample h⟩

/-- C5: for every `Swimming` activity, `Calories()` equals
`(mean_speed() + 1.1) * 2 * weight_kg * duration_hours`, where `mean_speed()`
is Swimming's pool-geometry override. -/
theorem swimming_calories_formula (s : Swimming) :
    s.Calories = (s.meanSpeed + 1.1) * 2 * s.training.Weight *
      Duration.hours s.training.Duration := rfl

/-- C6: for every activity of every variant — including `Swimming` — the
`Distance` field of the summary equals `repetitions * step_length_m / 1000`
(for swimming, the stroke count and stroke length, not the pool geometry),
and zero repetitions yield distance 0. -/
theorem trainingInfo_distance_formula (t : Training) (r : Running) (w : Walking)
    (s : Swimming) :
    (t.TrainingInfo).Distance = (t.Action : ℚ) * t.LenStep / 1000 ∧
    (r.TrainingInfo).Distance = (r.training.Action : ℚ) * r.training.LenStep / 1000 ∧
    (w.TrainingInfo).Distance = (w.training.Action : ℚ) * w.training.LenStep / 1000 ∧
    (s.TrainingInfo).Distance = (s.training.Action : ℚ) * s.training.LenStep / 1000 ∧
    ({ s with training := { s.training with Action := 0 } } : Swimming).TrainingInfo.Distance
      = 0 := by
  refine ⟨rfl, rfl, rfl, rfl, ?_⟩
  simp [Swimming.TrainingInfo, Swimming.distance, Training.distance]

/-- C7 counterexample: at the running sample of `main` (85 kg, 30 minutes,
5000 steps of 0.65 m) the calories are 302.9145, not within 1e-2 of the
claimed 305.32. -/
theorem running_sample_calories_not_near_305 :
    ¬ (|runningSample.Calories - 305.32| ≤ 0.01) := by
  norm_num [runningSample, Running.Calories, Running.meanSpeed,
    Training.distance, Training.meanSpeed, Duration.hours, Duration.nsPerMinute,
    Duration.nsPerHour, MInKm, MinInHours, LenStep, CaloriesMeanSpeedMultiplier,
    CaloriesMeanSpeedShift, abs]

/-- C7 (amended): for the running sample (85 kg, 30 minutes, 5000 steps of
0.65 m), distance is 3.25 km, mean speed is 6.5 km/h, and `Calories()`
equals `(18*6.5+1.79)*85/1000*30 = 302.9145`, within 1e-2 of 302.91. -/
theorem running_sample_metrics :
    runningSample.distance = 3.25 ∧ runningSample.meanSpeed = 6.5 ∧
    runningSample.Calories = (18 * 6.5 + 1.79) * 85 / 1000 * 30 ∧
    |runningSample.Calories - 302.91| ≤ 0.01 := by
  refine ⟨?_, ?_, ?_, ?_⟩ <;>
    norm_num [runningSample, Running.distance, Running.meanSpeed, Running.Calories,
      Training.distance, Training.meanSpeed, Duration.hours, Duration.nsPerMinute,
      Duration.nsPerHour, MInKm, MinInHours, LenStep, CaloriesMeanSpeedMultiplier,
      CaloriesMeanSpeedShift, abs]

/-- C8: `Walking.Calories` has no guard on height — for every walking
activity with zero height and non-zero mean speed, the unguarded division of
the squared speed term by the height produces a non-finite `float64`
(`+Inf`), so the error branch is reachable rather than validated or
rejected. -/
theorem walking_zero_height_calories_not_finite (w : Walking)
    (hh : w.Height = 0) (hs : w.meanSpeed ≠ 0) :
    (w.caloriesFloat).isFinite = false := by
  have hK : w.meanSpeed * KmHInMsec ≠ 0 :=
    mul_ne_zero hs (by norm_num [KmHInMsec])
  have hA : 0 < (w.meanSpeed * KmHInMsec) * (w.meanSpeed * KmHInMsec) :=
    mul_self_pos.mpr hK
  simp only [Walking.caloriesFloat, GoFloat.pow2, hh]
  rw [show ((0 : ℚ) / CmInM) = 0 by norm_num]
  rw [show (GoFloat.fin w.meanSpeed).mul (GoFloat.fin KmHInMsec) =
    GoFloat.fin (w.meanSpeed * KmHInMsec) from rfl]
  rw [show (GoFloat.fin (w.meanSpeed * KmHInMsec)).mul (GoFloat.fin (w.meanSpeed * KmHInMsec)) =
    GoFloat.fin ((w.meanSpeed * KmHInMsec) * (w.meanSpeed * KmHInMsec)) from rfl]
  rw [GoFloat.fin_div_zero _ hA]
  apply GoFloat.isFinite_false_mul_fin
  apply GoFloat.fin_add_isFinite_false
  apply GoFloat.isFinite_false_mul_fin
  rfl

/-- Witness for C8 at the walking sample with its height set to zero. -/
theorem walking_zero_height_calories_not_finite_witness :
    zeroHeightWalking.Height = 0 ∧ zeroHeightWalking.meanSpeed ≠ 0 ∧
    (zeroHeightWalking.caloriesFloat).isFinite = false := by
  have h1 : zeroHeightWalking.Height = 0 := rfl
  have h2 : zeroHeightWalking.meanSpeed ≠ 0 := by
    norm_num [zeroHeightWalking, walkingSample, Walking.meanSpeed, Training.meanSpeed,
      Training.distance, Duration.hours, Duration.nsPerHour, Duration.nsPerMinute,
      MInKm, LenStep]
  exact ⟨h1, h2, walking_zero_height_calories_not_finite _ h1 h2⟩

/-- C9: for every summary whose type label holds no newline, the rendered
text consists of exactly five newline-terminated lines in the order training
type, duration in minutes (full precision), distance, average speed,
calories; and the distance, speed and calories fields are each rendered with
exactly two decimal digits after the point, regardless of magnitude or
trailing zeros. -/
theorem render_five_lines_two_decimals (i : InfoMessage)
    (h : '\n' ∉ i.training.TrainingType.data) :
    linesOf (i.render).data =
      ["Тип тренировки: ".data ++ i.training.TrainingType.data,
       "Длительность: ".data ++ (fmtGoFloat (Duration.minutes i.training.Duration)).data ++
         " мин".data,
       "Дистанция: ".data ++ (fmt2 i.Distance).data ++ " км.".data,
       "Ср. скорость: ".data ++ (fmt2 i.Speed).data ++ " км/ч".data,
       "Потрачено ккал: ".data ++ (fmt2 i.Calories).data,
       []] ∧
    twoDecimalDigits (fmt2 i.Distance) ∧ twoDecimalDigits (fmt2 i.Speed) ∧
    twoDecimalDigits (fmt2 i.Calories) := by
  refine ⟨?_, fmt2_twoDecimalDigits _, fmt2_twoDecimalDigits _, fmt2_twoDecimalDigits _⟩
  have h1 : '\n' ∉ "Тип тренировки: ".data ++ i.training.TrainingType.data :=
    no_newline_append (by decide) h
  have h2 : '\n' ∉ "Длительность: ".data ++
      (fmtGoFloat (Duration.minutes i.training.Duration)).data ++ " мин".data :=
    no_newline_append (no_newline_append (by decide) (fmtGoFloat_no_newline _)) (by decide)
  have h3 : '\n' ∉ "Дистанция: ".data ++ (fmt2 i.Distance).data ++ " км.".data :=
    no_newline_append (no_newline_append (by decide) (fmt2_no_newline _)) (by decide)
  have h4 : '\n' ∉ "Ср. скорость: ".data ++ (fmt2 i.Speed).data ++ " км/ч".data :=
    no_newline_append (no_newline_append (by decide) (fmt2_no_newline _)) (by decide)
  have h5 : '\n' ∉ "Потрачено ккал: ".data ++ (fmt2 i.Calories).data :=
    no_newline_append (by decide) (fmt2_no_newline _)
  have e : (i.render).data =
      ("Тип тренировки: ".data ++ i.training.TrainingType.data) ++ '\n' ::
      (("Длительность: ".data ++ (fmtGoFloat (Duration.minutes i.training.Duration)).data ++
          " мин".data) ++ '\n' ::
      (("Дистанция: ".data ++ (fmt2 i.Distance).data ++ " км.".data) ++ '\n' ::
      (("Ср. скорость: ".data ++ (fmt2 i.Speed).data ++ " км/ч".data) ++ '\n' ::
      (("Потрачено ккал: ".data ++ (fmt2 i.Calories).data) ++ '\n' :: ([] : List Char))))) := by
    simp only [InfoMessage.render, String.data_append]
    simp [List.append_assoc, show ("\n" : String).data = ['\n'] from rfl]
  rw [e, linesOf_line _ _ h1, linesOf_line _ _ h2, linesOf_line _ _ h3,
    linesOf_line _ _ h4, linesOf_line _ _ h5]
  rfl

/-- Witness for C9 at the summary of the running sample. -/
theorem render_five_lines_two_decimals_witness :
    '\n' ∉ sampleInfo.training.TrainingType.data ∧
    (linesOf (sampleInfo.render).data =
      ["Тип тренировки: ".data ++ sampleInfo.training.TrainingType.data,
       "Длительность: ".data ++
         (fmtGoFloat (Duration.minutes sampleInfo.training.Duration)).data ++ " мин".data,
       "Дистанция: ".data ++ (fmt2 sampleInfo.Distance).data ++ " км.".data,
       "Ср. скорость: ".data ++ (fmt2 sampleInfo.Speed).data ++ " км/ч".data,
       "Потрачено ккал: ".data ++ (fmt2 sampleInfo.Calories).data,
       []] ∧
    twoDecimalDigits (fmt2 sampleInfo.Distance) ∧ twoDecimalDigits (fmt2 sampleInfo.Speed) ∧
    twoDecimalDigits (fmt2 sampleInfo.Calories)) := by
  have h : '\n' ∉ sampleInfo.training.TrainingType.data := by decide
  exact ⟨h, render_five_lines_two_decimals sampleInfo h⟩

/-- C10: for every activity value of each variant (`Training`, `Running`,
`Walking`, `Swimming`), `TrainingInfo().Calories` equals `Calories()`, so the
reassignment of the `Calories` field in `ReadData` leaves the info unchanged
and `ReadData` equals rendering `TrainingInfo()` directly. -/
theorem readData_refines_trainingInfo (a : Activity) :
    (a.TrainingInfo).Calories = a.Calories ∧ ReadData a = (a.TrainingInfo).render := by
  cases a <;> exact ⟨rfl, rfl⟩
